import Mathlib

/-!
Verification of the headlamp-sealed-secrets plugin core: the controller
client (proxy URL construction, certificate fetch with retry, health
probe), the API-version resolver with its cache, the persisted plugin
configuration, the SealedSecret scope getter, and the hybrid sealing
engine's round-trip and label-binding laws.

Network I/O is modelled by passing the outcome of each HTTP request as an
explicit value; the functions below mirror, branch for branch, the
TypeScript sources in src/index.tsx and src/lib/SealedSecretCRD.ts.
-/

/-- Modelled from the spec: the `Result` tagged union of src/types.ts
(not under src/): `{ok: true, value: T} | {ok: false, error: E}`. -/
inductive Result (T : Type) (E : Type) where
  | ok (value : T)
  | err (error : E)
deriving DecidableEq, Repr

/-- Whether a `Result` is the success variant. -/
def Result.isOk {T E : Type} : Result T E → Bool
  | .ok _ => true
  | .err _ => false

/-- The plugin configuration record (src/types.ts `PluginConfig`). -/
structure PluginConfig where
  controllerName : String
  controllerNamespace : String
  controllerPort : Nat
deriving DecidableEq, Repr

/-- `Response.ok` of the fetch API: true exactly for 2xx statuses. -/
def responseOk (status : Nat) : Bool := 200 ≤ status && status < 300

/-- src/index.tsx `getControllerProxyURL`: build the controller proxy URL. -/
def getControllerProxyURL : PluginConfig → String → String
  | ⟨controllerName, controllerNamespace, controllerPort⟩, path =>
    s!"/api/v1/namespaces/{controllerNamespace}/services/http:{controllerName}:{controllerPort}/proxy{path}"

/-- The default configuration literal of src/index.tsx `getPluginConfig`. -/
def defaultPluginConfig : PluginConfig :=
  { controllerName := "sealed-secrets-controller"
    controllerNamespace := "kube-system"
    controllerPort := 8080 }

/-- src/index.tsx `getPluginConfig`. `stored` is the value under the
localStorage key (`none` when absent); `parse` models `JSON.parse`, with
`none` standing for a parse exception. The JS truthiness test
`if (stored)` is the `s = ""` check. -/
def getPluginConfig (stored : Option String)
    (parse : String → Option PluginConfig) : PluginConfig :=
  match stored with
  | some s =>
    if s = "" then defaultPluginConfig
    else
      match parse s with
      | some c => c
      | none => defaultPluginConfig
  | none => defaultPluginConfig

/-- src/index.tsx `ControllerHealthStatus`. -/
structure ControllerHealthStatus where
  healthy : Bool
  reachable : Bool
  version : Option String := none
  latencyMs : Option Nat := none
  error : Option String := none
deriving DecidableEq, Repr

/-- Outcome of the single `fetch` inside `checkControllerHealth`: either a
response (status, status text, optional `X-Controller-Version` header) or a
thrown error with its `name` and `message` fields; the 5-second deadline
firing is the thrown error with name `"AbortError"`. -/
inductive HealthFetchOutcome where
  | response (status : Nat) (statusText : String) (versionHeader : Option String)
  | failure (name : String) (message : String)
deriving DecidableEq, Repr

/-- src/index.tsx `checkControllerHealth`, with the fetch outcome and the
measured latency passed explicitly. -/
def checkControllerHealth (_config : PluginConfig)
    (outcome : HealthFetchOutcome) (latencyMs : Nat) :
    Result ControllerHealthStatus String :=
  match outcome with
  | .response status statusText versionHeader =>
    if responseOk status then
      .ok { healthy := true
            reachable := true
            version := versionHeader.bind (fun h => if h = "" then none else some h)
            latencyMs := some latencyMs }
    else
      .ok { healthy := false
            reachable := true
            latencyMs := some latencyMs
            error := some s!"HTTP {status}: {statusText}" }
  | .failure name message =>
    .ok { healthy := false
          reachable := false
          latencyMs := some latencyMs
          error := some (if name = "AbortError" then "Request timed out after 5 seconds"
                         else if message = "" then "Controller unreachable"
                         else message) }

/-- Modelled from the spec: the retry options of src/lib/retry.ts
(not under src/): `{maxAttempts, initialDelayMs, maxDelayMs}`. -/
structure RetryOpts where
  maxAttempts : Nat
  initialDelayMs : Nat
  maxDelayMs : Nat
deriving DecidableEq, Repr

/-- Modelled from the spec: the backoff delays of src/lib/retry.ts
(not under src/): the delay starts at `initialDelayMs`, doubles each
subsequent attempt and is capped at `maxDelayMs` (jitter, being random,
is not modelled; the spec bounds it within `[0, maxDelayMs]`). -/
def backoffDelay (opts : RetryOpts) (k : Nat) : Nat :=
  min (opts.initialDelayMs * 2 ^ k) opts.maxDelayMs

/-- Helper for `retryWithBackoff`: run attempt `i` with `n` further
attempts allowed after it; the last failure is returned as the overall
failure. -/
def retryFrom {T E : Type} (op : Nat → Result T E) : Nat → Nat → Result T E
  | i, 0 => op i
  | i, n + 1 =>
    match op i with
    | .ok v => .ok v
    | .err _ => retryFrom op (i + 1) n

/-- Modelled from the spec: `retryWithBackoff` of src/lib/retry.ts
(not under src/): re-execute a fallible operation up to
`opts.maxAttempts` times, returning the first success or the last
failure. `op i` is the outcome of attempt `i`. -/
def retryWithBackoff {T E : Type} (op : Nat → Result T E) (opts : RetryOpts) :
    Result T E :=
  retryFrom op 0 (opts.maxAttempts - 1)

/-- Outcome of the single `fetch` inside `fetchPublicCertificateOnce`:
a response (status, status text, body text) or a thrown error message. -/
inductive CertFetchOutcome where
  | response (status : Nat) (statusText : String) (body : String)
  | failure (message : String)
deriving DecidableEq, Repr

/-- src/index.tsx `fetchPublicCertificateOnce`: single-attempt certificate
GET; a non-2xx response throws, the thrown message is caught and wrapped. -/
def fetchPublicCertificateOnce (_config : PluginConfig)
    (outcome : CertFetchOutcome) : Result String String :=
  match outcome with
  | .response status statusText body =>
    if responseOk status then .ok body
    else .err s!"Unable to fetch controller certificate: Failed to fetch certificate: {status} {statusText}"
  | .failure message =>
    .err s!"Unable to fetch controller certificate: {message}"

/-- src/index.tsx `fetchPublicCertificate`: the single-attempt fetch
wrapped in `retryWithBackoff` with maxAttempts 3, initialDelayMs 1000,
maxDelayMs 10000. `outcomes i` is the fetch outcome of attempt `i`. -/
def fetchPublicCertificate (config : PluginConfig)
    (outcomes : Nat → CertFetchOutcome) : Result String String :=
  retryWithBackoff (fun i => fetchPublicCertificateOnce config (outcomes i))
    { maxAttempts := 3, initialDelayMs := 1000, maxDelayMs := 10000 }

/-- One entry of `spec.versions` in the CRD metadata. -/
structure CrdVersion where
  name : String
  served : Bool
  storage : Bool
deriving DecidableEq, Repr

/-- The `spec` of the fetched CRD object; `versions` is optional, as the
source reads it with `crd.spec?.versions?`. -/
structure CrdSpec where
  group : String
  versions : Option (List CrdVersion)
deriving DecidableEq, Repr

/-- The fetched CRD object; `spec` is optional (`crd.spec?`). -/
structure Crd where
  spec : Option CrdSpec
deriving DecidableEq, Repr

/-- Outcome of the CRD metadata fetch in `detectApiVersion`: a response
with parsed JSON body, or a thrown error message (transport failure or
`response.json()` throwing). -/
inductive CrdFetchOutcome where
  | response (status : Nat) (statusText : String) (crd : Crd)
  | failure (message : String)
deriving DecidableEq, Repr

/-- src/lib/SealedSecretCRD.ts `SealedSecret.DEFAULT_VERSION`. -/
def DEFAULT_VERSION : String := "bitnami.com/v1alpha1"

/-- Result of a `detectApiVersion` call: the returned `Result`, the cache
(`SealedSecret.detectedVersion`) after the call, and whether the CRD
metadata query was issued. -/
structure DetectResult where
  result : Result String String
  cache : Option String
  networkCalled : Bool
deriving DecidableEq, Repr

/-- The body of src/lib/SealedSecretCRD.ts `detectApiVersion` after the
cache check: query the CRD metadata, pick the storage version, else the
first served version, else the hardcoded default. -/
def detectFetch (cache : Option String) (outcome : CrdFetchOutcome) :
    DetectResult :=
  match outcome with
  | .failure message => ⟨.err message, cache, true⟩
  | .response status statusText crd =>
    if responseOk status then
      match crd.spec with
      | some sp =>
        match sp.versions with
        | some vs =>
          match vs.find? (fun v => v.storage) with
          | some sv =>
            ⟨.ok (sp.group ++ "/" ++ sv.name), some (sp.group ++ "/" ++ sv.name), true⟩
          | none =>
            match vs.find? (fun v => v.served) with
            | some se =>
              ⟨.ok (sp.group ++ "/" ++ se.name), some (sp.group ++ "/" ++ se.name), true⟩
            | none => ⟨.ok DEFAULT_VERSION, cache, true⟩
        | none => ⟨.ok DEFAULT_VERSION, cache, true⟩
      | none => ⟨.ok DEFAULT_VERSION, cache, true⟩
    else
      if status = 404 then
        ⟨.err "SealedSecrets CRD not found. Please install Sealed Secrets on the cluster.", cache, true⟩
      else
        ⟨.err s!"Failed to fetch CRD: {status} {statusText}", cache, true⟩

/-- src/lib/SealedSecretCRD.ts `SealedSecret.detectApiVersion`, with the
cached `detectedVersion` passed in and threaded out.  The JS truthiness
guard `if (this.detectedVersion)` is the `v = ""` test. -/
def detectApiVersion (cache : Option String) (outcome : CrdFetchOutcome) :
    DetectResult :=
  match cache with
  | some v => if v = "" then detectFetch cache outcome else ⟨.ok v, some v, false⟩
  | none => detectFetch cache outcome

/-- src/lib/SealedSecretCRD.ts `SealedSecret.clearVersionCache`: reset the
cached version to null. -/
def clearVersionCache (_cache : Option String) : Option String := none

/-- Annotation lookup on a Kubernetes metadata annotation map, modelled as
an association list; `none` models JS `undefined`. -/
def annotationLookup (annos : List (String × String)) (key : String) :
    Option String :=
  (annos.find? (fun p => p.1 = key)).map (fun p => p.2)

/-- src/lib/SealedSecretCRD.ts `SealedSecret.scope` getter; the argument
is `this.metadata.annotations` (`none` when absent, handled by `|| {}`). -/
def sealedSecretScope (annos : Option (List (String × String))) : String :=
  let a := annos.getD []
  if annotationLookup a "sealedsecrets.bitnami.com/cluster-wide" = some "true" then
    "cluster-wide"
  else if annotationLookup a "sealedsecrets.bitnami.com/namespace-wide" = some "true" then
    "namespace-wide"
  else "strict"

/-- An RSA public key, identified by the key pair it belongs to. -/
structure RSAPublicKey where
  keyId : Nat
deriving DecidableEq, Repr

/-- An RSA private key, identified by the key pair it belongs to; held
only by the controller-side decryption oracle. -/
structure RSAPrivateKey where
  keyId : Nat
deriving DecidableEq, Repr

/-- Modelled from the spec: an RSA-OAEP ciphertext produced by the hybrid
sealing engine (not under src/).  OAEP decryption is modelled symbolically:
it recovers the payload exactly when the matching private key and the same
OAEP label are supplied. -/
structure OAEPCiphertext where
  pubKeyId : Nat
  label : String
  payload : Nat
deriving DecidableEq, Repr

/-- Modelled from the spec: OAEP unwrapping by the controller-side oracle
holding the private key; fails unless the key pair matches and the label
presented at decrypt time equals the label bound at encrypt time. -/
def oaepUnwrap (priv : RSAPrivateKey) (label : String) (ct : OAEPCiphertext) :
    Option Nat :=
  if ct.pubKeyId = priv.keyId ∧ ct.label = label then some ct.payload else none

/-- Modelled from the spec: an AEAD (AES-256-GCM) ciphertext with its
integrity tag, produced under a session key and nonce with the scope label
as additional authenticated data. -/
structure AEADCiphertext where
  key : Nat
  nonce : Nat
  aad : String
  plaintext : List Nat
deriving DecidableEq, Repr

/-- Modelled from the spec: AEAD decryption; integrity validation fails
(returns `none`) unless key, nonce and additional authenticated data all
match those used at encryption time. -/
def aeadOpen (key nonce : Nat) (aad : String) (ct : AEADCiphertext) :
    Option (List Nat) :=
  if ct.key = key ∧ ct.nonce = nonce ∧ ct.aad = aad then some ct.plaintext
  else none

/-- Modelled from the spec: the sealed envelope of the hybrid sealing
engine — the RSA-wrapped session key (with its length prefix, implicit in
the structured representation), the AEAD nonce, and the symmetric
ciphertext with tag. -/
structure SealedEnvelope where
  wrappedKey : OAEPCiphertext
  nonce : Nat
  ciphertext : AEADCiphertext
deriving DecidableEq, Repr

/-- Modelled from the spec: `seal` of the hybrid sealing engine (not under
src/): encrypt the plaintext under a fresh session key and nonce with the
label as AEAD additional authenticated data, and wrap the session key
under the RSA public key with the same label as the OAEP label. -/
def sealValue (plaintext : List Nat) (pub : RSAPublicKey) (label : String)
    (sessionKey nonce : Nat) : SealedEnvelope :=
  { wrappedKey := { pubKeyId := pub.keyId, label := label, payload := sessionKey }
    nonce := nonce
    ciphertext := { key := sessionKey, nonce := nonce, aad := label, plaintext := plaintext } }

/-- Modelled from the spec: `unseal`, the controller-side decryption
oracle holding the private key: unwrap the session key with the presented
label as OAEP label, then open the AEAD ciphertext with the same label as
additional authenticated data. -/
def unsealValue (env : SealedEnvelope) (priv : RSAPrivateKey) (label : String) :
    Option (List Nat) :=
  (oaepUnwrap priv label env.wrappedKey).bind
    (fun sk => aeadOpen sk env.nonce label env.ciphertext)

/-- Fixture: attempt outcomes where the first attempt throws and later
attempts return the certificate. -/
def certAttemptsExample : Nat → CertFetchOutcome :=
  fun i => if i = 0 then .failure "boom" else .response 200 "OK" "CERT"

/-- Fixture: a `JSON.parse` model accepting a single stored value. -/
def parseFixture : String → Option PluginConfig :=
  fun s => if s = "cfg" then some ⟨"a", "b", 1⟩ else none

/-- Unfolding lemma: the last allowed attempt's outcome is returned. -/
theorem retryFrom_zero {T E : Type} (op : Nat → Result T E) (i : Nat) :
    retryFrom op i 0 = op i := rfl

/-- Unfolding lemma: with attempts remaining, a failure moves on to the
next attempt. -/
theorem retryFrom_succ {T E : Type} (op : Nat → Result T E) (i n : Nat) :
    retryFrom op i (n + 1)
      = match op i with
        | .ok v => .ok v
        | .err _ => retryFrom op (i + 1) n := rfl

/-- Every branch of the post-cache-check body issues the network query. -/
theorem detectFetch_networkCalled (cache : Option String)
    (outcome : CrdFetchOutcome) : (detectFetch cache outcome).networkCalled = true := by
  cases outcome with
  | failure m => rfl
  | response status statusText crd =>
    unfold detectFetch
    rcases crd with ⟨sp⟩
    rcases sp with _ | ⟨g, vers⟩
    · by_cases h : responseOk status = true <;> simp [h]
      split <;> rfl
    · rcases vers with _ | vs
      · by_cases h : responseOk status = true <;> simp [h]
        split <;> rfl
      · by_cases h : responseOk status = true <;> simp [h]
        · rcases hs : vs.find? (fun v => v.storage) with _ | sv <;> simp [hs]
          rcases he : vs.find? (fun v => v.served) with _ | se <;> simp [he]
        · split <;> rfl

/-- C1: for every plaintext, key pair and label, sealing under the public
key and label and then unsealing (the controller-side oracle holding the
matching private key) with the same label returns the plaintext exactly,
and unsealing with any different label fails deterministically. -/
theorem sealValue_roundtrip_label_binding
    (plaintext : List Nat) (pub : RSAPublicKey) (priv : RSAPrivateKey)
    (label : String) (sessionKey nonce : Nat)
    (hkey : priv.keyId = pub.keyId) :
    unsealValue (sealValue plaintext pub label sessionKey nonce) priv label
        = some plaintext
    ∧ ∀ label2, label2 ≠ label →
        unsealValue (sealValue plaintext pub label sessionKey nonce) priv label2
          = none := by
  constructor
  · simp [unsealValue, sealValue, oaepUnwrap, aeadOpen, hkey]
  · intro label2 hne
    simp [unsealValue, sealValue, oaepUnwrap, aeadOpen, hkey, Ne.symm hne]

/-- C1 witness: sealing the bytes of "hi" under the strict label
"default/greeting" round-trips, and unsealing under the label "default"
fails. -/
theorem sealValue_roundtrip_label_binding_witness :
    unsealValue (sealValue [104, 105] ⟨1⟩ "default/greeting" 42 7) ⟨1⟩
        "default/greeting" = some [104, 105]
    ∧ unsealValue (sealValue [104, 105] ⟨1⟩ "default/greeting" 42 7) ⟨1⟩
        "default" = none := by
  have h := sealValue_roundtrip_label_binding [104, 105] ⟨1⟩ ⟨1⟩
    "default/greeting" 42 7 rfl
  exact ⟨h.1, h.2 "default" (by decide)⟩

/-- C2: `getControllerProxyURL` is a pure string construction returning
exactly the API-server proxy path
`/api/v1/namespaces/{ns}/services/http:{name}:{port}/proxy{path}`. -/
theorem getControllerProxyURL_spec (config : PluginConfig) (path : String) :
    getControllerProxyURL config path
      = "/api/v1/namespaces/" ++ config.controllerNamespace
        ++ "/services/http:" ++ config.controllerName ++ ":"
        ++ toString config.controllerPort ++ "/proxy" ++ path := by
  cases config
  simp only [getControllerProxyURL]
  rw [show (toString "" : String) = "" from rfl, String.append_empty]
  rfl

/-- C3: `checkControllerHealth` never returns the `err` variant, whatever
the outcome of the underlying request (2xx, non-2xx, transport exception,
or the 5-second deadline firing as an AbortError). -/
theorem checkControllerHealth_never_err (config : PluginConfig)
    (outcome : HealthFetchOutcome) (latencyMs : Nat) :
    (checkControllerHealth config outcome latencyMs).isOk = true := by
  cases outcome with
  | response status statusText versionHeader =>
    simp only [checkControllerHealth]
    split <;> rfl
  | failure name message => rfl

/-- C4 (amended): the health probe classifies into exactly three outcomes
— 2xx: healthy and reachable with latency and the optional
`X-Controller-Version` header; non-2xx: reachable but unhealthy with the
status text in the error; transport failure or the deadline firing:
unreachable, the deadline case carrying the fixed message "Request timed
out after 5 seconds" and other transport failures their own message or
the distinct default "Controller unreachable". -/
theorem checkControllerHealth_classification
    (config : PluginConfig) (latencyMs : Nat) :
    (∀ status statusText versionHeader, responseOk status = true →
       checkControllerHealth config (.response status statusText versionHeader) latencyMs
         = .ok { healthy := true, reachable := true,
                 version := versionHeader.bind (fun h => if h = "" then none else some h),
                 latencyMs := some latencyMs, error := none })
    ∧ (∀ status statusText versionHeader, responseOk status = false →
         checkControllerHealth config (.response status statusText versionHeader) latencyMs
           = .ok { healthy := false, reachable := true, version := none,
                   latencyMs := some latencyMs,
                   error := some s!"HTTP {status}: {statusText}" })
    ∧ (∀ message, checkControllerHealth config (.failure "AbortError" message) latencyMs
         = .ok { healthy := false, reachable := false, version := none,
                 latencyMs := some latencyMs,
                 error := some "Request timed out after 5 seconds" })
    ∧ (∀ name message, name ≠ "AbortError" →
         checkControllerHealth config (.failure name message) latencyMs
           = .ok { healthy := false, reachable := false, version := none,
                   latencyMs := some latencyMs,
                   error := some (if message = "" then "Controller unreachable" else message) })
    ∧ ("Request timed out after 5 seconds" : String) ≠ "Controller unreachable" := by
  refine ⟨?_, ?_, ?_, ?_, by decide⟩
  · intro status statusText versionHeader h
    simp [checkControllerHealth, h]
  · intro status statusText versionHeader h
    simp [checkControllerHealth, h]
  · intro message
    simp [checkControllerHealth]
  · intro name message h
    simp [checkControllerHealth, h]

/-- C4 witness: concrete probes of every class — a 200 with a version
header, a 503, a deadline abort, and a message-less transport failure. -/
theorem checkControllerHealth_classification_witness :
    checkControllerHealth defaultPluginConfig (.response 200 "OK" (some "v0.24.0")) 12
        = .ok { healthy := true, reachable := true, version := some "v0.24.0",
                latencyMs := some 12, error := none }
    ∧ checkControllerHealth defaultPluginConfig (.response 503 "Service Unavailable" none) 12
        = .ok { healthy := false, reachable := true, version := none,
                latencyMs := some 12, error := some "HTTP 503: Service Unavailable" }
    ∧ checkControllerHealth defaultPluginConfig (.failure "AbortError" "") 5000
        = .ok { healthy := false, reachable := false, version := none,
                latencyMs := some 5000,
                error := some "Request timed out after 5 seconds" }
    ∧ checkControllerHealth defaultPluginConfig (.failure "TypeError" "") 3
        = .ok { healthy := false, reachable := false, version := none,
                latencyMs := some 3, error := some "Controller unreachable" } := by
  have h := checkControllerHealth_classification defaultPluginConfig
  exact ⟨by simpa using h 12 |>.1 200 "OK" (some "v0.24.0") (by decide),
         by simpa using h 12 |>.2.1 503 "Service Unavailable" none (by decide),
         h 5000 |>.2.2.1 "",
         by simpa using h 3 |>.2.2.2.1 "TypeError" "" (by decide)⟩

/-- C4 counterexample: the claim that the deadline case's message differs
from every other transport-failure message fails — a non-deadline
transport error whose own message is the same string is reported
identically to a deadline abort. -/
theorem checkControllerHealth_timeout_message_collision :
    checkControllerHealth defaultPluginConfig
        (.failure "TypeError" "Request timed out after 5 seconds") 10
      = checkControllerHealth defaultPluginConfig
          (.failure "AbortError" "network down") 10 := by
  decide

/-- C5 counterexample: with an empty `spec.versions` list the call
succeeds with the hardcoded default, yet nothing is cached — the claim
that every success case caches the returned string is false. -/
theorem detectApiVersion_default_not_cached :
    (detectApiVersion none (.response 200 "OK" ⟨some ⟨"bitnami.com", some []⟩⟩)).result
        = .ok DEFAULT_VERSION
    ∧ (detectApiVersion none (.response 200 "OK" ⟨some ⟨"bitnami.com", some []⟩⟩)).cache
        = none := by
  decide

/-- C5 (amended): with an unresolved cache and a 2xx CRD metadata
response, `detectApiVersion` picks the first version with `storage`,
else the first version with `served`, else the hardcoded default
`bitnami.com/v1alpha1`; the chosen `group/version` string is cached in
the storage and served cases, while the hardcoded-default case returns
without caching. -/
theorem detectApiVersion_selection
    (status : Nat) (statusText : String) (group : String)
    (vs : List CrdVersion) (hok : responseOk status = true) :
    (∀ sv, vs.find? (fun v => v.storage) = some sv →
       detectApiVersion none (.response status statusText ⟨some ⟨group, some vs⟩⟩)
         = ⟨.ok (group ++ "/" ++ sv.name), some (group ++ "/" ++ sv.name), true⟩)
    ∧ (vs.find? (fun v => v.storage) = none →
       ∀ se, vs.find? (fun v => v.served) = some se →
         detectApiVersion none (.response status statusText ⟨some ⟨group, some vs⟩⟩)
           = ⟨.ok (group ++ "/" ++ se.name), some (group ++ "/" ++ se.name), true⟩)
    ∧ (vs.find? (fun v => v.storage) = none →
       vs.find? (fun v => v.served) = none →
         detectApiVersion none (.response status statusText ⟨some ⟨group, some vs⟩⟩)
           = ⟨.ok DEFAULT_VERSION, none, true⟩)
    ∧ detectApiVersion none (.response status statusText ⟨some ⟨group, none⟩⟩)
        = ⟨.ok DEFAULT_VERSION, none, true⟩
    ∧ detectApiVersion none (.response status statusText ⟨none⟩)
        = ⟨.ok DEFAULT_VERSION, none, true⟩ := by
  refine ⟨?_, ?_, ?_, ?_, ?_⟩
  · intro sv hsv
    simp [detectApiVersion, detectFetch, hok, hsv]
  · intro hns se hse
    simp [detectApiVersion, detectFetch, hok, hns, hse]
  · intro hns hne
    simp [detectApiVersion, detectFetch, hok, hns, hne]
  · simp [detectApiVersion, detectFetch, hok]
  · simp [detectApiVersion, detectFetch, hok]

/-- C5 witness: a CRD declaring `v1alpha1` as served storage version
resolves and caches `bitnami.com/v1alpha1`; one whose only version is
served but not the storage version resolves through the served fallback. -/
theorem detectApiVersion_selection_witness :
    detectApiVersion none
        (.response 200 "OK" ⟨some ⟨"bitnami.com", some [⟨"v1alpha1", true, true⟩]⟩⟩)
      = ⟨.ok "bitnami.com/v1alpha1", some "bitnami.com/v1alpha1", true⟩
    ∧ detectApiVersion none
        (.response 200 "OK" ⟨some ⟨"bitnami.com", some [⟨"v1beta1", true, false⟩]⟩⟩)
      = ⟨.ok "bitnami.com/v1beta1", some "bitnami.com/v1beta1", true⟩ := by
  have h1 := detectApiVersion_selection 200 "OK" "bitnami.com"
    [⟨"v1alpha1", true, true⟩] (by decide)
  have h2 := detectApiVersion_selection 200 "OK" "bitnami.com"
    [⟨"v1beta1", true, false⟩] (by decide)
  exact ⟨h1.1 ⟨"v1alpha1", true, true⟩ (by decide),
         h2.2.1 (by decide) ⟨"v1beta1", true, false⟩ (by decide)⟩

/-- C6: the version cache is the state machine
Unresolved → Resolved(version): in the resolved state `detectApiVersion`
returns the cached value with no network call and leaves the state
resolved; `clearVersionCache` moves any state back to unresolved, after
which the next `detectApiVersion` call issues the network query again. -/
theorem detectApiVersion_cache_machine (v : String) (hv : v ≠ "") :
    (∀ outcome, detectApiVersion (some v) outcome = ⟨.ok v, some v, false⟩)
    ∧ (∀ cache, clearVersionCache cache = none)
    ∧ (∀ outcome,
        (detectApiVersion (clearVersionCache (some v)) outcome).networkCalled = true) := by
  refine ⟨?_, fun _ => rfl, ?_⟩
  · intro outcome
    simp [detectApiVersion, hv]
  · intro outcome
    simpa [detectApiVersion, clearVersionCache] using
      detectFetch_networkCalled none outcome

/-- C6 witness: with `bitnami.com/v1alpha1` cached the call returns it
without querying; after clearing, a call hits the network. -/
theorem detectApiVersion_cache_machine_witness :
    detectApiVersion (some "bitnami.com/v1alpha1") (.failure "down")
        = ⟨.ok "bitnami.com/v1alpha1", some "bitnami.com/v1alpha1", false⟩
    ∧ clearVersionCache (some "bitnami.com/v1alpha1") = none
    ∧ (detectApiVersion (clearVersionCache (some "bitnami.com/v1alpha1"))
        (.failure "down")).networkCalled = true := by
  have h := detectApiVersion_cache_machine "bitnami.com/v1alpha1" (by decide)
  exact ⟨h.1 (.failure "down"), h.2.1 (some "bitnami.com/v1alpha1"),
         h.2.2 (.failure "down")⟩

/-- C7: a 404 on the CRD metadata query yields the distinct,
user-actionable "CRD not found" failure; every other non-2xx status
yields the generic failure carrying the status; and the 404 message is
distinguishable from every generic message. -/
theorem detectApiVersion_404_distinct :
    (∀ statusText crd,
       detectApiVersion none (.response 404 statusText crd)
         = ⟨.err "SealedSecrets CRD not found. Please install Sealed Secrets on the cluster.",
            none, true⟩)
    ∧ (∀ status statusText crd, responseOk status = false → status ≠ 404 →
         detectApiVersion none (.response status statusText crd)
           = ⟨.err s!"Failed to fetch CRD: {status} {statusText}", none, true⟩)
    ∧ (∀ (status : Nat) (statusText : String),
         s!"Failed to fetch CRD: {status} {statusText}"
           ≠ "SealedSecrets CRD not found. Please install Sealed Secrets on the cluster.") := by
  refine ⟨?_, ?_, ?_⟩
  · intro statusText crd
    simp [detectApiVersion, detectFetch]
    intro h
    exact absurd h (by decide)
  · intro status statusText crd hok h404
    simp [detectApiVersion, detectFetch, hok, h404]
  · intro status statusText h
    have hd : (s!"Failed to fetch CRD: {status} {statusText}").data.head? = some 'F' := by
      rw [show s!"Failed to fetch CRD: {status} {statusText}"
          = ((("Failed to fetch CRD: " ++ toString status) ++ " ") ++ statusText) ++ ""
          from rfl]
      simp [String.data_append, List.head?_append]
    rw [h] at hd
    exact absurd hd (by decide)

/-- C7 witness: a 404 produces the CRD-not-found failure, a 500 the
generic failure, and the two messages differ. -/
theorem detectApiVersion_404_distinct_witness :
    detectApiVersion none (.response 404 "Not Found" ⟨none⟩)
        = ⟨.err "SealedSecrets CRD not found. Please install Sealed Secrets on the cluster.",
           none, true⟩
    ∧ detectApiVersion none (.response 500 "Internal Server Error" ⟨none⟩)
        = ⟨.err "Failed to fetch CRD: 500 Internal Server Error", none, true⟩
    ∧ ("Failed to fetch CRD: 500 Internal Server Error" : String)
        ≠ "SealedSecrets CRD not found. Please install Sealed Secrets on the cluster." := by
  refine ⟨detectApiVersion_404_distinct.1 "Not Found" (Crd.mk none), ?_, ?_⟩
  · have h := detectApiVersion_404_distinct.2.1 500 "Internal Server Error"
      (Crd.mk none) (by decide) (by decide)
    simpa using h
  · have h := detectApiVersion_404_distinct.2.2 500 "Internal Server Error"
    simp at h
    exact h

/-- C8: the certificate fetch is the single-attempt GET wrapped in the
retry driver with maxAttempts 3, initialDelayMs 1000, maxDelayMs 10000:
a successful attempt returns the response body untransformed, every
failed attempt (non-2xx or transport failure) is retried while attempts
remain, the third consecutive failure is returned as the overall
failure, and outcomes beyond the third attempt are never consulted. -/
theorem fetchPublicCertificate_retry_spec
    (config : PluginConfig) (outcomes : Nat → CertFetchOutcome) :
    (∀ status statusText body, responseOk status = true →
       fetchPublicCertificateOnce config (.response status statusText body) = .ok body)
    ∧ (∀ status statusText, responseOk status = false →
         (fetchPublicCertificateOnce config (.response status statusText "x")).isOk = false)
    ∧ (∀ message, (fetchPublicCertificateOnce config (.failure message)).isOk = false)
    ∧ (fetchPublicCertificate config outcomes
        = retryWithBackoff (fun i => fetchPublicCertificateOnce config (outcomes i))
            { maxAttempts := 3, initialDelayMs := 1000, maxDelayMs := 10000 })
    ∧ (∀ b, fetchPublicCertificateOnce config (outcomes 0) = .ok b →
         fetchPublicCertificate config outcomes = .ok b)
    ∧ (∀ e0 b, fetchPublicCertificateOnce config (outcomes 0) = .err e0 →
         fetchPublicCertificateOnce config (outcomes 1) = .ok b →
         fetchPublicCertificate config outcomes = .ok b)
    ∧ (∀ e0 e1 b, fetchPublicCertificateOnce config (outcomes 0) = .err e0 →
         fetchPublicCertificateOnce config (outcomes 1) = .err e1 →
         fetchPublicCertificateOnce config (outcomes 2) = .ok b →
         fetchPublicCertificate config outcomes = .ok b)
    ∧ (∀ e0 e1 e2, fetchPublicCertificateOnce config (outcomes 0) = .err e0 →
         fetchPublicCertificateOnce config (outcomes 1) = .err e1 →
         fetchPublicCertificateOnce config (outcomes 2) = .err e2 →
         fetchPublicCertificate config outcomes = .err e2)
    ∧ (∀ g : Nat → CertFetchOutcome, outcomes 0 = g 0 → outcomes 1 = g 1 →
         outcomes 2 = g 2 →
         fetchPublicCertificate config outcomes = fetchPublicCertificate config g) := by
  have hunfold : ∀ f : Nat → CertFetchOutcome,
      fetchPublicCertificate config f
        = match fetchPublicCertificateOnce config (f 0) with
          | .ok v => .ok v
          | .err _ =>
            match fetchPublicCertificateOnce config (f 1) with
            | .ok v => .ok v
            | .err _ => fetchPublicCertificateOnce config (f 2) := by
    intro f
    show retryFrom (fun i => fetchPublicCertificateOnce config (f i)) 0
      (Nat.succ (Nat.succ Nat.zero)) = _
    simp only [retryFrom]
    norm_num
    rcases h0 : fetchPublicCertificateOnce config (f 0) with v | e0 <;> simp [h0]
    rcases h1 : fetchPublicCertificateOnce config (f 1) with v | e1 <;> simp [h1]
  refine ⟨?_, ?_, ?_, rfl, ?_, ?_, ?_, ?_, ?_⟩
  · intro status statusText body h
    simp [fetchPublicCertificateOnce, h]
  · intro status statusText h
    simp [fetchPublicCertificateOnce, h, Result.isOk]
  · intro message
    simp [fetchPublicCertificateOnce, Result.isOk]
  · intro b h0
    rw [hunfold outcomes, h0]
  · intro e0 b h0 h1
    rw [hunfold outcomes, h0, h1]
  · intro e0 e1 b h0 h1 h2
    rw [hunfold outcomes, h0, h1, h2]
  · intro e0 e1 e2 h0 h1 h2
    rw [hunfold outcomes, h0, h1, h2]
  · intro g h0 h1 h2
    rw [hunfold outcomes, hunfold g, h0, h1, h2]

/-- C8 witness: with a transport failure on the first attempt and a 200
on the second, the wrapped fetch retries and returns the body exactly. -/
theorem fetchPublicCertificate_retry_spec_witness :
    fetchPublicCertificate defaultPluginConfig certAttemptsExample = .ok "CERT" := by
  exact (fetchPublicCertificate_retry_spec defaultPluginConfig certAttemptsExample).2.2.2.2.2.1
    "Unable to fetch controller certificate: boom" "CERT" (by decide) (by decide)

/-- C9: `getPluginConfig` returns the parsed stored configuration when
the persisted key is present and parses, and in every other case (key
absent, or parse failure) returns the default
`{sealed-secrets-controller, kube-system, 8080}` without raising. -/
theorem getPluginConfig_fallback (stored : Option String)
    (parse : String → Option PluginConfig) (hparse : parse "" = none) :
    (∀ s c, stored = some s → parse s = some c →
       getPluginConfig stored parse = c)
    ∧ (stored = none → getPluginConfig stored parse = defaultPluginConfig)
    ∧ (∀ s, stored = some s → parse s = none →
         getPluginConfig stored parse = defaultPluginConfig) := by
  refine ⟨?_, ?_, ?_⟩
  · intro s c hs hc
    subst hs
    rcases eq_or_ne s "" with rfl | hne
    · rw [hparse] at hc
      exact absurd hc (by simp)
    · simp [getPluginConfig, hne, hc]
  · intro hs
    subst hs
    rfl
  · intro s hs hc
    subst hs
    rcases eq_or_ne s "" with rfl | hne
    · rfl
    · simp [getPluginConfig, hne, hc]

/-- C9 witness: a stored value that parses is returned as parsed; an
absent key and a non-parsing value both yield the default. -/
theorem getPluginConfig_fallback_witness :
    getPluginConfig (some "cfg") parseFixture = ⟨"a", "b", 1⟩
    ∧ getPluginConfig none parseFixture = defaultPluginConfig
    ∧ getPluginConfig (some "oops") parseFixture = defaultPluginConfig := by
  have h1 := getPluginConfig_fallback (some "cfg") parseFixture (by decide)
  have h2 := getPluginConfig_fallback none parseFixture (by decide)
  have h3 := getPluginConfig_fallback (some "oops") parseFixture (by decide)
  exact ⟨h1.1 "cfg" ⟨"a", "b", 1⟩ rfl (by decide), h2.2.1 rfl,
         h3.2.2 "oops" rfl (by decide)⟩

/-- C10: the scope getter is total and resolves annotation conflicts by
fixed precedence — cluster-wide wins when its annotation is exactly the
string "true" (even if namespace-wide is also "true"), then
namespace-wide, and everything else (absent annotations or any other
value) is strict. -/
theorem sealedSecretScope_precedence (annos : Option (List (String × String))) :
    (annotationLookup (annos.getD []) "sealedsecrets.bitnami.com/cluster-wide"
        = some "true" → sealedSecretScope annos = "cluster-wide")
    ∧ (annotationLookup (annos.getD []) "sealedsecrets.bitnami.com/cluster-wide"
        ≠ some "true" →
       annotationLookup (annos.getD []) "sealedsecrets.bitnami.com/namespace-wide"
        = some "true" → sealedSecretScope annos = "namespace-wide")
    ∧ (annotationLookup (annos.getD []) "sealedsecrets.bitnami.com/cluster-wide"
        ≠ some "true" →
       annotationLookup (annos.getD []) "sealedsecrets.bitnami.com/namespace-wide"
        ≠ some "true" → sealedSecretScope annos = "strict") := by
  refine ⟨?_, ?_, ?_⟩
  · intro hc
    simp [sealedSecretScope, hc]
  · intro hc hn
    simp [sealedSecretScope, hc, hn]
  · intro hc hn
    simp [sealedSecretScope, hc, hn]

/-- C10 witness: with both annotations set to "true" the scope is
cluster-wide; with only namespace-wide "true" it is namespace-wide; with
no annotations, or with a value other than the exact string "true", it
is strict. -/
theorem sealedSecretScope_precedence_witness :
    sealedSecretScope (some [("sealedsecrets.bitnami.com/cluster-wide", "true"),
        ("sealedsecrets.bitnami.com/namespace-wide", "true")]) = "cluster-wide"
    ∧ sealedSecretScope (some [("sealedsecrets.bitnami.com/namespace-wide", "true")])
        = "namespace-wide"
    ∧ sealedSecretScope none = "strict"
    ∧ sealedSecretScope (some [("sealedsecrets.bitnami.com/cluster-wide", "True")])
        = "strict" := by
  refine ⟨(sealedSecretScope_precedence _).1 (by decide),
          (sealedSecretScope_precedence _).2.1 (by decide) (by decide),
          (sealedSecretScope_precedence _).2.2 (by decide) (by decide),
          (sealedSecretScope_precedence _).2.2 (by decide) (by decide)⟩
